import Mathlib

/-!
Verification of the weather analysis and recommendation engine of the
alexa-what-to-wear repository.

The repository carries two copies of the engine:
* `src/weather-service/index.mjs` (the original lambda), embedded here with
  plain names (`computeEffectiveTemp`, `analyzeStatements`, `generateAPLData`, …);
* an unnamed refactored copy (`src/unnamed/part_000`) that introduces a
  `THRESHOLDS` constant table, a two-pass hour locator and a pre-check in
  `analyzeLaterToday`, embedded with a `V2` suffix
  (`computeEffectiveTempV2`, `analyzeStatementsV2`, `generateAPLDataV2`, …).

JavaScript numbers are modelled as `ℚ` (all decision thresholds of the program
are decimal literals, and every comparison proved here is away from binary
rounding concerns), JS strings as `String`, and JS `Date` values as a record of
the calendar fields the program reads (`getFullYear`, `getMonth`, `getDate`,
`getHours` plus minutes for `Date` ordering).
-/

/-- Character-list helper for JS `String.prototype.includes`: does the second
list start with the first? -/
def startsWithChars : List Char → List Char → Bool
  | [], _ => true
  | _ :: _, [] => false
  | a :: as, b :: bs => a == b && startsWithChars as bs

/-- Character-list helper for JS `String.prototype.includes`: does the second
list contain the first as a contiguous sublist? -/
def containsChars (sub : List Char) : List Char → Bool
  | [] => sub.isEmpty
  | b :: bs => startsWithChars sub (b :: bs) || containsChars sub bs

/-- JS `s.includes(sub)`: case-SENSITIVE substring test (as in JavaScript). -/
def strIncludes (s sub : String) : Bool :=
  containsChars sub.data s.data

/-- The calendar fields of a JS `Date` that the program reads:
`getFullYear`, `getMonth`, `getDate` (day of month), `getHours`, plus minutes
so that `Date` comparison (epoch order) is expressible. -/
structure Timestamp where
  year : ℤ
  month : ℤ
  day : ℤ
  hour : ℤ
  minute : ℤ
deriving DecidableEq

instance : Inhabited Timestamp := ⟨⟨0, 0, 0, 0, 0⟩⟩

/-- JS `Date` order (`a <= b` on epoch milliseconds) for well-formed
timestamps: lexicographic on (year, month, day, hour, minute). -/
def tsLeB (a b : Timestamp) : Bool :=
  if a.year ≠ b.year then decide (a.year < b.year)
  else if a.month ≠ b.month then decide (a.month < b.month)
  else if a.day ≠ b.day then decide (a.day < b.day)
  else if a.hour ≠ b.hour then decide (a.hour < b.hour)
  else decide (a.minute ≤ b.minute)

/-- The locator's same-calendar-day test
(`getDate`, `getMonth` and `getFullYear` all equal), from the part_000
handler, lines 109-111. -/
def sameDayFull (a b : Timestamp) : Bool :=
  a.day == b.day && a.month == b.month && a.year == b.year

/-- Full calendar-day equality, used to state claims about "the same calendar
day". -/
def sameCalendarDay (a b : Timestamp) : Bool :=
  a.year == b.year && a.month == b.month && a.day == b.day

/-- Function `computeEffectiveTemp` from `src/weather-service/index.mjs` (lines
212-234): closed integer-literal wind bands (`>= 5 && <= 10`, `>= 11 && <= 20`,
`>= 21 && <= 30`, `> 30`), then the humidity adjustment. -/
def computeEffectiveTemp (tempF windMph humidity : ℚ) : ℚ :=
  let eff := tempF
  let eff :=
    if 5 ≤ windMph ∧ windMph ≤ 10 then eff - 4
    else if 11 ≤ windMph ∧ windMph ≤ 20 then eff - 8
    else if 21 ≤ windMph ∧ windMph ≤ 30 then eff - 12
    else if 30 < windMph then eff - 18
    else eff
  if 70 < tempF ∧ 70 < humidity then eff + 8
  else if tempF < 50 ∧ humidity < 30 then eff - 3
  else eff

/-- Function `computeEffectiveTemp` from `src/unnamed/part_000` (lines 303-328):
half-open wind bands built from the `THRESHOLDS.WIND_CHILL` table
(LIGHT.threshold 5, MODERATE.threshold 11, STRONG.threshold 21,
SEVERE.threshold 30), then the humidity adjustment. -/
def computeEffectiveTempV2 (tempF windMph humidity : ℚ) : ℚ :=
  let eff := tempF
  let eff :=
    if 5 ≤ windMph ∧ windMph < 11 then eff - 4
    else if 11 ≤ windMph ∧ windMph < 21 then eff - 8
    else if 21 ≤ windMph ∧ windMph < 30 then eff - 12
    else if 30 ≤ windMph then eff - 18
    else eff
  if 70 < tempF ∧ 70 < humidity then eff + 8
  else if tempF < 50 ∧ humidity < 30 then eff - 3
  else eff

/-- Function `getTempCategory` (identical in both files). -/
def getTempCategory (effTemp : ℚ) : String :=
  if effTemp < 0 then "extreme cold"
  else if effTemp < 20 then "very cold"
  else if effTemp < 35 then "cold"
  else if effTemp < 50 then "cool"
  else if effTemp < 65 then "mild"
  else if effTemp < 80 then "warm"
  else if effTemp < 90 then "hot"
  else "very hot"

/-- The ordered category list from `categoryIndex` (identical in both files). -/
def categoriesList : List String :=
  ["extreme cold", "very cold", "cold", "cool", "mild", "warm", "hot", "very hot"]

/-- JS `Array.prototype.indexOf` on a list of strings, with running index. -/
def indexOfFrom (target : String) : List String → ℤ → ℤ
  | [], _ => -1
  | c :: rest, acc => if c = target then acc else indexOfFrom target rest (acc + 1)

/-- Function `categoryIndex` (identical in both files): position of a category name in
the fixed ordered list, `-1` when absent. -/
def categoryIndex (category : String) : ℤ :=
  indexOfFrom category categoriesList 0


/-- Function `formatHour` (identical in both files): 12-hour clock label, e.g. "3 PM". -/
def formatHour (t : Timestamp) : String :=
  let ampm := if 12 ≤ t.hour then "PM" else "AM"
  let h := if t.hour = 0 then 12 else if 12 < t.hour then t.hour - 12 else t.hour
  toString h ++ " " ++ ampm

/-- Function `getWeatherDescription` (identical in both files): WMO code to text. -/
def getWeatherDescription (code : ℕ) : String :=
  if code = 0 then "Clear Sky"
  else if code = 1 then "Mainly Clear"
  else if code = 2 then "Partly Cloudy"
  else if code = 3 then "Overcast"
  else if code = 45 then "Foggy"
  else if code = 48 then "Foggy with Rime"
  else if code = 51 then "Light Drizzle"
  else if code = 53 then "Moderate Drizzle"
  else if code = 55 then "Heavy Drizzle"
  else if code = 56 then "Light Freezing Drizzle"
  else if code = 57 then "Dense Freezing Drizzle"
  else if code = 61 then "Light Rain"
  else if code = 63 then "Moderate Rain"
  else if code = 65 then "Heavy Rain"
  else if code = 66 then "Light Freezing Rain"
  else if code = 67 then "Heavy Freezing Rain"
  else if code = 71 then "Light Snow"
  else if code = 73 then "Moderate Snow"
  else if code = 75 then "Heavy Snow"
  else if code = 77 then "Snow Grains"
  else if code = 80 then "Light Rain Showers"
  else if code = 81 then "Moderate Rain Showers"
  else if code = 82 then "Violent Rain Showers"
  else if code = 85 then "Light Snow Showers"
  else if code = 86 then "Heavy Snow Showers"
  else if code = 95 then "Thunderstorm"
  else if code = 96 then "Thunderstorm with Light Hail"
  else if code = 99 then "Thunderstorm with Heavy Hail"
  else "Mixed Conditions"

/-- Function `shortAdviceForCategory` (identical in both files). -/
def shortAdviceForCategory (cat : String) : String :=
  if cat = "extreme cold" then "Bundle up with multiple insulating layers."
  else if cat = "very cold" then "Heavy coat, thermal layers, winter gear."
  else if cat = "cold" then "Wear a warm jacket and layers."
  else if cat = "cool" then "A light jacket or hoodie should help."
  else if cat = "mild" then "Light layers are likely enough."
  else if cat = "warm" then "Short sleeves or light clothing."
  else if cat = "hot" then "Thin, breathable clothes, stay hydrated."
  else if cat = "very hot" then "Minimal clothing and strong sun protection."
  else ""

/-- The locator's "qualifying entry" test from the part_000 handler
(lines 109-112): same full calendar day and hour-of-day at most the current
hour-of-day. -/
def qualB (t cur : Timestamp) : Bool :=
  sameDayFull t cur && decide (t.hour ≤ cur.hour)

/-- Qualifying entry whose hour-of-day equals the current hour-of-day
(the locator's break condition, part_000 line 115). -/
def exactHourB (t cur : Timestamp) : Bool :=
  qualB t cur && t.hour == cur.hour

/-- The part_000 handler's forward locator loop (lines 105-119): walk the
hourly times with running index `i` and best-so-far `idx`, remembering every
qualifying entry and stopping at the first exact hour match. -/
def findHourIndexLoop (cur : Timestamp) : List Timestamp → ℕ → ℤ → ℤ
  | [], _, idx => idx
  | t :: rest, i, idx =>
    if qualB t cur then
      if t.hour = cur.hour then (i : ℤ)
      else findHourIndexLoop cur rest (i + 1) (i : ℤ)
    else findHourIndexLoop cur rest (i + 1) idx

/-- The part_000 handler's fallback loop (lines 122-131): scan indices
`n-1, n-2, …, 0` and return the first (i.e. the largest) index whose
timestamp is `<=` the current timestamp, `-1` if none. -/
def backScan (cur : Timestamp) (times : List Timestamp) : ℕ → ℤ
  | 0 => -1
  | n + 1 => if tsLeB (times.getD n default) cur then (n : ℤ) else backScan cur times n

/-- The hour locator of the part_000 handler (lines 105-131): forward
same-day scan, then the `idx === -1 && length > 0` fallback. -/
def findHourIndex (cur : Timestamp) (times : List Timestamp) : ℤ :=
  let idx := findHourIndexLoop cur times 0 (-1)
  if idx = -1 ∧ 0 < times.length then backScan cur times times.length else idx

/-- First index satisfying a predicate (spec-side combinator). -/
def firstIdxWhere (p : α → Bool) : List α → Option ℕ
  | [] => none
  | a :: l => if p a then some 0 else (firstIdxWhere p l).map (· + 1)

/-- Last index satisfying a predicate (spec-side combinator). -/
def lastIdxWhere (p : α → Bool) : List α → Option ℕ
  | [] => none
  | a :: l =>
    match lastIdxWhere p l with
    | some k => some (k + 1)
    | none => if p a then some 0 else none

/-- Modelled from the spec's Hour Locator algorithm (§4.1), word for word:
prefer the first same-day entry whose hour-of-day equals the current
hour-of-day; otherwise the latest same-day entry with hour-of-day ≤ the
current hour; otherwise the last entry overall with timestamp ≤ the current
timestamp; `-1` (not-found) when the sequence is empty or nothing matches. -/
def findHourIndexSpec (cur : Timestamp) (times : List Timestamp) : ℤ :=
  match firstIdxWhere (fun t => exactHourB t cur) times with
  | some j => (j : ℤ)
  | none =>
    match lastIdxWhere (fun t => qualB t cur) times with
    | some k => (k : ℤ)
    | none =>
      match lastIdxWhere (fun t => tsLeB t cur) times with
      | some m => (m : ℤ)
      | none => -1

/-- The hour locator of `src/weather-service/index.mjs` (line 54):
`hourlyTimes.indexOf(currentTime)`, i.e. the first index whose timestamp
equals the current timestamp exactly, `-1` if absent. -/
def indexOfLocator (cur : Timestamp) (times : List Timestamp) : ℤ :=
  match firstIdxWhere (fun t => t == cur) times with
  | some j => (j : ℤ)
  | none => -1

/-- One hour of the forecast dataset: the index-aligned reads of the parallel
`hourly` arrays (`time`, `temperature_2m`, `relativehumidity_2m`,
`precipitation`, `windspeed_10m`, `weathercode`), bundled per index as the
spec's equal-length invariant licenses. -/
structure HourEntry where
  time : Timestamp
  temp : ℚ
  humidity : ℚ
  precip : ℚ
  windSpeed : ℚ
  code : ℕ
deriving DecidableEq

/-- The three trigger kinds of the Later-Today Scanner. -/
inductive TriggerKind
  | tempSwing
  | precipitation
  | wind
deriving DecidableEq

/-- Boolean equality of trigger kinds. -/
def kindEq : TriggerKind → TriggerKind → Bool
  | .tempSwing, .tempSwing => true
  | .precipitation, .precipitation => true
  | .wind, .wind => true
  | _, _ => false

/-- The scan state of `analyzeLaterToday`: the `statements` array (each with
the trigger kind that pushed it) and the three `notifiedConditions` flags. -/
structure ScanState where
  statements : List (TriggerKind × String)
  tempSwingNotified : Bool
  precipitationNotified : Bool
  windNotified : Bool

/-- One iteration of the `analyzeLaterToday` scan loop body (common to both
files, part_000 lines 400-444): the three guarded pushes, in source order.
`effFn` is the file's own `computeEffectiveTemp`; `i` is the absolute hourly
index of entry `e`. -/
def scanStep (effFn : ℚ → ℚ → ℚ → ℚ) (currentCatIndex : ℤ) (startIndex i : ℕ)
    (e : HourEntry) (st : ScanState) : ScanState :=
  let eff := effFn e.temp e.windSpeed e.humidity
  let cat := getTempCategory eff
  let catIdx := categoryIndex cat
  let st1 :=
    if st.tempSwingNotified = false ∧ 2 ≤ |catIdx - currentCatIndex| then
      { st with
        statements := st.statements ++ [(TriggerKind.tempSwing,
          "Around " ++ formatHour e.time ++ ", it may feel " ++ cat ++ ". " ++
            shortAdviceForCategory cat)]
        tempSwingNotified := true }
    else st
  let st2 :=
    if st1.precipitationNotified = false ∧ (0.25 : ℚ) < e.precip then
      { st1 with
        statements := st1.statements ++ [(TriggerKind.precipitation,
          "Expect " ++ (getWeatherDescription e.code).toLower ++ " near " ++
            formatHour e.time ++ ", so bring rain gear.")]
        precipitationNotified := true }
    else st1
  if st2.windNotified = false ∧ (25 : ℚ) < e.windSpeed ∧ i ≤ startIndex + 8 then
    { st2 with
      statements := st2.statements ++ [(TriggerKind.wind,
        "Strong winds expected around " ++ formatHour e.time ++
          ", consider wind protection.")]
      windNotified := true }
  else st2

/-- The `analyzeLaterToday` scan loop (common to both files): walk the hours
after the locator index, stopping at the first entry whose day-of-month
(`getDate`) differs from the located hour's. -/
def scanLoop (effFn : ℚ → ℚ → ℚ → ℚ) (currentCatIndex : ℤ) (startIndex : ℕ)
    (nowDay : ℤ) : ℕ → List HourEntry → ScanState → ScanState
  | _, [], st => st
  | i, e :: rest, st =>
    if e.time.day ≠ nowDay then st
    else
      scanLoop effFn currentCatIndex startIndex nowDay (i + 1) rest
        (scanStep effFn currentCatIndex startIndex i e st)

/-- The statements accumulated by `analyzeLaterToday` of
`src/weather-service/index.mjs` (lines 249-319), before the two-statement cap.
The `none` branch covers a start index at or beyond the end of the series, for
which the JS loop body never runs. -/
def analyzeStatements (startIndex : ℤ) (nowEff : ℚ) (hourly : List HourEntry) :
    List (TriggerKind × String) :=
  if hourly.length = 0 ∨ startIndex < 0 then []
  else
    match hourly.get? startIndex.toNat with
    | none => []
    | some e0 =>
      (scanLoop computeEffectiveTemp (categoryIndex (getTempCategory nowEff))
        startIndex.toNat e0.time.day (startIndex.toNat + 1)
        (hourly.drop (startIndex.toNat + 1)) ⟨[], false, false, false⟩).statements

/-- Function `analyzeLaterToday` of `src/weather-service/index.mjs`: empty string when
no statement fired, otherwise the lead-in plus the first two statements
(`statements.splice(2)` then `join(" ")`). -/
def analyzeLaterToday (startIndex : ℤ) (nowEff : ℚ) (hourly : List HourEntry) :
    String :=
  let statements := analyzeStatements startIndex nowEff hourly
  if statements.isEmpty then ""
  else
    "Later today, watch for changes. " ++
      String.intercalate " " ((statements.take 2).map Prod.snd)

/-- The statements accumulated by `analyzeLaterToday` of
`src/unnamed/part_000` (lines 343-461), before the cap: same loop, but with
the `hasFutureHoursToday` pre-check (lines 364-379, again a `getDate`-only
comparison) and part_000's own `computeEffectiveTemp`. The `none` branch
covers a start index at or beyond the end of the series, for which every
`getDate` comparison against the invalid date is false. -/
def analyzeStatementsV2 (startIndex : ℤ) (nowEff : ℚ) (hourly : List HourEntry) :
    List (TriggerKind × String) :=
  if hourly.length = 0 ∨ startIndex < 0 then []
  else
    match hourly.get? startIndex.toNat with
    | none => []
    | some e0 =>
      if (hourly.drop (startIndex.toNat + 1)).any
          (fun e => e.time.day == e0.time.day) then
        (scanLoop computeEffectiveTempV2 (categoryIndex (getTempCategory nowEff))
          startIndex.toNat e0.time.day (startIndex.toNat + 1)
          (hourly.drop (startIndex.toNat + 1)) ⟨[], false, false, false⟩).statements
      else []

/-- Function `analyzeLaterToday` of `src/unnamed/part_000`: empty string when no
statement fired, otherwise the lead-in plus the first
`THRESHOLDS.MAX_LATER_STATEMENTS = 2` statements. -/
def analyzeLaterTodayV2 (startIndex : ℤ) (nowEff : ℚ) (hourly : List HourEntry) :
    String :=
  let statements := analyzeStatementsV2 startIndex nowEff hourly
  if statements.isEmpty then ""
  else
    "Later today, watch for changes. " ++
      String.intercalate " " ((statements.take 2).map Prod.snd)

/-- Number of statements of a given trigger kind. -/
def countKind (k : TriggerKind) (l : List (TriggerKind × String)) : ℕ :=
  (l.filter fun p => kindEq p.1 k).length

/-- The `notifiedConditions` flag of a given trigger kind. -/
def flagFor (st : ScanState) : TriggerKind → Bool
  | .tempSwing => st.tempSwingNotified
  | .precipitation => st.precipitationNotified
  | .wind => st.windNotified

/-- One entry of the APL `clothingItems` array: `{ item, emoji }`. -/
structure ClothingItem where
  item : String
  emoji : String
deriving DecidableEq

/-- The wind-protection entry pushed by `generateAPLData`'s wind group. -/
def windProtectionItem : ClothingItem := ⟨"Wind Protection", "💨"⟩

/-- The temperature-category group of `generateAPLData` (identical in both
files, index.mjs lines 500-558). -/
def tempClothing (tempCategory : String) : List ClothingItem :=
  if tempCategory = "extreme cold" ∨ tempCategory = "very cold" ∨
      tempCategory = "cold" then
    [⟨"Heavy Coat", "🧥"⟩, ⟨"Winter Hat", "🧢"⟩, ⟨"Gloves", "🧤"⟩,
      ⟨"Long Pants", "👖"⟩]
  else if tempCategory = "cool" then
    [⟨"Light Jacket", "🧥"⟩, ⟨"Long Pants", "👖"⟩]
  else if tempCategory = "mild" then
    [⟨"Long Sleeve", "👕"⟩, ⟨"Long Pants", "👖"⟩]
  else if tempCategory = "warm" ∨ tempCategory = "hot" then
    [⟨"T-Shirt", "👕"⟩, ⟨"Shorts", "🩳"⟩]
  else if tempCategory = "very hot" then
    [⟨"Light Clothes", "👕"⟩, ⟨"Shorts", "🩳"⟩, ⟨"Hydration", "💧"⟩]
  else []

/-- The precipitation group of `generateAPLData` (both files: `precip > 0`). -/
def precipClothing (precip : ℚ) : List ClothingItem :=
  if 0 < precip then [⟨"Umbrella", "☂️"⟩, ⟨"Rain Jacket", "🧥"⟩] else []

/-- The snow-condition group of `generateAPLData` (both files). -/
def snowClothing (weatherDesc : String) : List ClothingItem :=
  if strIncludes weatherDesc "Snow" then [⟨"Snow Boots", "👢"⟩] else []

/-- The UV group of `generateAPLData` (both files): sunglasses at UV ≥ 3 when
daytime, plus sunscreen and hat at UV ≥ 6. -/
def uvClothing (isDaytime : Bool) (uvIndex : ℚ) : List ClothingItem :=
  if isDaytime = true ∧ 3 ≤ uvIndex then
    ⟨"Sunglasses", "🕶️"⟩ ::
      (if 6 ≤ uvIndex then [⟨"Sunscreen", "🧴"⟩, ⟨"Hat", "👒"⟩] else [])
  else []

/-- The wind group of `generateAPLData` in `src/weather-service/index.mjs`
(line 597): `windSpeed > 15`. -/
def windClothing (windSpeed : ℚ) : List ClothingItem :=
  if 15 < windSpeed then [windProtectionItem] else []

/-- The wind group of `generateAPLData` in `src/unnamed/part_000` (line 802):
`windSpeed > THRESHOLDS.WIND_CHILL.LIGHT.threshold`, i.e. `windSpeed > 5`. -/
def windClothingV2 (windSpeed : ℚ) : List ClothingItem :=
  if 5 < windSpeed then [windProtectionItem] else []

/-- The `backgroundType` chain of `generateAPLData` (identical in both files,
index.mjs lines 480-494): case-sensitive `String.includes` checks in fixed
priority order, then the day/night fallback. -/
def backgroundType (weatherDesc : String) (isDaytime : Bool) : String :=
  if strIncludes weatherDesc "Rain" || strIncludes weatherDesc "Drizzle" then
    "rainy"
  else if strIncludes weatherDesc "Snow" then "snowy"
  else if strIncludes weatherDesc "Cloud" || strIncludes weatherDesc "Overcast" then
    "overcast"
  else if strIncludes weatherDesc "Fog" then "foggy"
  else if strIncludes weatherDesc "Thunder" then "stormy"
  else if isDaytime = false then "night"
  else "sunny"

/-- JS `Math.round` on the rationals the program feeds it. -/
def jsRound (q : ℚ) : ℤ := ⌊q + 1/2⌋

/-- The object returned by `generateAPLData`. -/
structure APLData where
  background : String
  timeOfDay : String
  clothingRecommendations : List ClothingItem
  temperature : ℤ
  temperatureCategory : String
  weatherCondition : String
  uvIndex : ℚ
  humidity : ℚ
  windSpeed : ℚ

/-- Function `generateAPLData` of `src/weather-service/index.mjs` (lines 478-616).
The clothing list is the concatenation of the rule groups in push order. -/
def generateAPLData (weatherDesc : String) (effTemp precip windSpeed humidity uvIndex : ℚ)
    (isDaytime : Bool) : APLData :=
  { background := backgroundType weatherDesc isDaytime
    timeOfDay := if isDaytime then "day" else "night"
    clothingRecommendations :=
      tempClothing (getTempCategory effTemp) ++ precipClothing precip ++
        snowClothing weatherDesc ++ uvClothing isDaytime uvIndex ++
        windClothing windSpeed
    temperature := jsRound effTemp
    temperatureCategory := getTempCategory effTemp
    weatherCondition := weatherDesc
    uvIndex := uvIndex
    humidity := humidity
    windSpeed := windSpeed }

/-- Function `generateAPLData` of `src/unnamed/part_000` (lines 683-821): identical
except that the wind group's threshold is `WIND_CHILL.LIGHT.threshold = 5`. -/
def generateAPLDataV2 (weatherDesc : String) (effTemp precip windSpeed humidity uvIndex : ℚ)
    (isDaytime : Bool) : APLData :=
  { background := backgroundType weatherDesc isDaytime
    timeOfDay := if isDaytime then "day" else "night"
    clothingRecommendations :=
      tempClothing (getTempCategory effTemp) ++ precipClothing precip ++
        snowClothing weatherDesc ++ uvClothing isDaytime uvIndex ++
        windClothingV2 windSpeed
    temperature := jsRound effTemp
    temperatureCategory := getTempCategory effTemp
    weatherCondition := weatherDesc
    uvIndex := uvIndex
    humidity := humidity
    windSpeed := windSpeed }

/-- Replace the month and year fields of the j-th hourly entry's timestamp,
leaving every field the scanner reads unchanged. -/
def setMonthYear : List HourEntry → ℕ → ℤ → ℤ → List HourEntry
  | [], _, _, _ => []
  | e :: rest, 0, m, y =>
    { e with time := { e.time with month := m, year := y } } :: rest
  | e :: rest, j + 1, m, y => e :: setMonthYear rest j m y

/-- Agreement of timestamps on every field except month and year. -/
def agreeTS (a b : Timestamp) : Prop :=
  a.day = b.day ∧ a.hour = b.hour ∧ a.minute = b.minute

/-- Agreement of hourly entries on every field the scanner reads. -/
def agreeEntry (a b : HourEntry) : Prop :=
  agreeTS a.time b.time ∧ a.temp = b.temp ∧ a.humidity = b.humidity ∧
    a.precip = b.precip ∧ a.windSpeed = b.windSpeed ∧ a.code = b.code

/-- Pointwise agreement of hourly series up to month and year. -/
inductive AgreeList : List HourEntry → List HourEntry → Prop
  | nil : AgreeList [] []
  | cons {a b : HourEntry} {l m : List HourEntry} :
      agreeEntry a b → AgreeList l m → AgreeList (a :: l) (b :: m)

/-- Concrete data: the located hour for the C7 counterexample. -/
def ce7e0 : HourEntry := ⟨⟨2024, 2, 5, 9, 0⟩, 50, 50, 0, 3, 0⟩

/-- Concrete data: an entry one month later sharing only the day-of-month. -/
def ce7e1 : HourEntry := ⟨⟨2024, 3, 5, 10, 0⟩, 50, 50, 0, 30, 0⟩

/-- Concrete data: a single located hour with strong wind, for the C8
witness. -/
def w8entry : HourEntry := ⟨⟨2024, 2, 5, 9, 0⟩, 50, 50, 0, 30, 0⟩

/-- Concrete data: last hour of its day, for the C7 witness. -/
def w7e0 : HourEntry := ⟨⟨2024, 2, 5, 23, 0⟩, 50, 50, 0, 3, 0⟩

/-- Concrete data: first hour of the next day, stormy, for the C7 witness. -/
def w7e1 : HourEntry := ⟨⟨2024, 2, 6, 0, 0⟩, 10, 50, 1, 30, 61⟩

/-- Concrete data: located hour for the C9 continuation conjunct. -/
def c9e0 : HourEntry := ⟨⟨2024, 2, 5, 9, 0⟩, 50, 50, 0, 3, 0⟩

/-- Concrete data: an hour in a different month, same day-of-month, windy. -/
def c9e1 : HourEntry := ⟨⟨2024, 6, 5, 10, 0⟩, 50, 50, 0, 30, 0⟩

/-- Concrete data: an hour in a different year, same day-of-month, rainy. -/
def c9e2 : HourEntry := ⟨⟨2025, 2, 5, 11, 0⟩, 50, 50, 1, 3, 61⟩

/-- Function `computeEffectiveTemp` (index.mjs) decomposes into its zero-wind value
minus the wind adjustment of the closed integer bands. -/
lemma cET_decomp (t w h : ℚ) :
    computeEffectiveTemp t w h =
      computeEffectiveTemp t 0 h -
        (if 5 ≤ w ∧ w ≤ 10 then 4
         else if 11 ≤ w ∧ w ≤ 20 then 8
         else if 21 ≤ w ∧ w ≤ 30 then 12
         else if 30 < w then 18 else 0) := by
  simp only [computeEffectiveTemp]
  norm_num
  split_ifs <;> ring

/-- Function `computeEffectiveTempV2` (part_000) decomposes into its zero-wind value
minus the wind adjustment of the half-open bands. -/
lemma cET2_decomp (t w h : ℚ) :
    computeEffectiveTempV2 t w h =
      computeEffectiveTempV2 t 0 h -
        (if 5 ≤ w ∧ w < 11 then 4
         else if 11 ≤ w ∧ w < 21 then 8
         else if 21 ≤ w ∧ w < 30 then 12
         else if 30 ≤ w then 18 else 0) := by
  simp only [computeEffectiveTempV2]
  norm_num
  split_ifs <;> ring

/-- C1, counterexample. The claim asserts the −12°F wind band is [21,31), so
that windSpeed = 30.9 mph gives a 12°F reduction. On the code, both
calculators give an 18°F reduction at 30.9 mph (the −12 band ends at 30):
with temperature 50°F and humidity 50% (no humidity adjustment, zero-wind
value 50), both return 32 = 50 − 18, not 38 = 50 − 12. -/
theorem c1_counterexample :
    computeEffectiveTemp 50 (309/10) 50 = 32 ∧
    computeEffectiveTempV2 50 (309/10) 50 = 32 ∧
    computeEffectiveTemp 50 0 50 = 50 ∧
    computeEffectiveTempV2 50 0 50 = 50 ∧
    (32 : ℚ) ≠ 50 - 12 := by
  norm_num [computeEffectiveTemp, computeEffectiveTempV2]

/-- C1, amended. Wind adjustment bands of the two effective-temperature
calculators, for every temperature, humidity and wind speed. part_000 uses
non-overlapping half-open bands [5,11) → −4, [11,21) → −8, [21,30) → −12,
[30,∞) → −18; index.mjs uses the closed integer bands [5,10] → −4,
[11,20] → −8, [21,30] → −12, (30,∞) → −18, leaving the gaps (10,11) and
(20,21) unadjusted. Below 5 mph neither adjusts. windSpeed = 5 gives a 4°F
reduction, windSpeed = 30.9 and windSpeed = 31 both give an 18°F reduction. -/
theorem c1_amended (t w h : ℚ) :
    (w < 5 → computeEffectiveTempV2 t w h = computeEffectiveTempV2 t 0 h) ∧
    (5 ≤ w → w < 11 → computeEffectiveTempV2 t w h = computeEffectiveTempV2 t 0 h - 4) ∧
    (11 ≤ w → w < 21 → computeEffectiveTempV2 t w h = computeEffectiveTempV2 t 0 h - 8) ∧
    (21 ≤ w → w < 30 → computeEffectiveTempV2 t w h = computeEffectiveTempV2 t 0 h - 12) ∧
    (30 ≤ w → computeEffectiveTempV2 t w h = computeEffectiveTempV2 t 0 h - 18) ∧
    (w < 5 → computeEffectiveTemp t w h = computeEffectiveTemp t 0 h) ∧
    (5 ≤ w → w ≤ 10 → computeEffectiveTemp t w h = computeEffectiveTemp t 0 h - 4) ∧
    (10 < w → w < 11 → computeEffectiveTemp t w h = computeEffectiveTemp t 0 h) ∧
    (11 ≤ w → w ≤ 20 → computeEffectiveTemp t w h = computeEffectiveTemp t 0 h - 8) ∧
    (20 < w → w < 21 → computeEffectiveTemp t w h = computeEffectiveTemp t 0 h) ∧
    (21 ≤ w → w ≤ 30 → computeEffectiveTemp t w h = computeEffectiveTemp t 0 h - 12) ∧
    (30 < w → computeEffectiveTemp t w h = computeEffectiveTemp t 0 h - 18) ∧
    computeEffectiveTempV2 t 5 h = computeEffectiveTempV2 t 0 h - 4 ∧
    computeEffectiveTemp t 5 h = computeEffectiveTemp t 0 h - 4 ∧
    computeEffectiveTempV2 t (309/10) h = computeEffectiveTempV2 t 0 h - 18 ∧
    computeEffectiveTemp t (309/10) h = computeEffectiveTemp t 0 h - 18 ∧
    computeEffectiveTempV2 t 31 h = computeEffectiveTempV2 t 0 h - 18 ∧
    computeEffectiveTemp t 31 h = computeEffectiveTemp t 0 h - 18 := by
  refine ⟨fun h1 => ?_, fun h1 h2 => ?_, fun h1 h2 => ?_, fun h1 h2 => ?_, fun h1 => ?_,
    fun h1 => ?_, fun h1 h2 => ?_, fun h1 h2 => ?_, fun h1 h2 => ?_, fun h1 h2 => ?_,
    fun h1 h2 => ?_, fun h1 => ?_, ?_, ?_, ?_, ?_, ?_, ?_⟩
  all_goals
    first
      | (rw [cET2_decomp t w h]; split_ifs <;> first | linarith | (simp_all; done) | (norm_num at *; done) | (norm_num at *; simp_all; done))
      | (rw [cET_decomp t w h]; split_ifs <;> first | linarith | (simp_all; done) | (norm_num at *; done) | (norm_num at *; simp_all; done))
      | (rw [cET2_decomp t 5 h]; split_ifs <;> first | linarith | (simp_all; done) | (norm_num at *; done) | (norm_num at *; simp_all; done))
      | (rw [cET_decomp t 5 h]; split_ifs <;> first | linarith | (simp_all; done) | (norm_num at *; done) | (norm_num at *; simp_all; done))
      | (rw [cET2_decomp t (309/10) h]; split_ifs <;> first | linarith | (simp_all; done) | (norm_num at *; done) | (norm_num at *; simp_all; done))
      | (rw [cET_decomp t (309/10) h]; split_ifs <;> first | linarith | (simp_all; done) | (norm_num at *; done) | (norm_num at *; simp_all; done))
      | (rw [cET2_decomp t 31 h]; split_ifs <;> first | linarith | (simp_all; done) | (norm_num at *; done) | (norm_num at *; simp_all; done))
      | (rw [cET_decomp t 31 h]; split_ifs <;> first | linarith | (simp_all; done) | (norm_num at *; done) | (norm_num at *; simp_all; done))

/-- C1 witness: the amended band theorem at concrete inputs. -/
theorem c1_amended_witness :
    computeEffectiveTempV2 60 7 50 = computeEffectiveTempV2 60 0 50 - 4 ∧
    computeEffectiveTemp 60 7 50 = computeEffectiveTemp 60 0 50 - 4 :=
  ⟨(c1_amended 60 7 50).2.1 (by norm_num) (by norm_num),
   (c1_amended 60 7 50).2.2.2.2.2.2.1 (by norm_num) (by norm_num)⟩

/-- C3, counterexample. The claim asserts the "rainy" background matches
condition text containing "rain" in any letter case. The code's
`String.includes("Rain")` is case-sensitive: for condition text "light rain"
(which contains "rain") at night, both builders return "night", not "rainy". -/
theorem c3_counterexample :
    strIncludes "light rain" "rain" = true ∧
    (generateAPLData "light rain" 50 0 0 50 0 false).background = "night" ∧
    (generateAPLDataV2 "light rain" 50 0 0 50 0 false).background = "night" ∧
    "night" ≠ "rainy" := by
  refine ⟨by decide, ?_, ?_, by decide⟩ <;>
    norm_num +decide [generateAPLData, generateAPLDataV2, backgroundType]

/-- C3, amended. The visual payload builder's background mood is "rainy"
whenever the condition text contains "Rain" as a case-sensitive substring
(likewise "Drizzle"), and this takes priority over the "night" fallback for
non-daytime inputs. -/
theorem c3_amended (weatherDesc : String)
    (effTemp precip windSpeed humidity uvIndex : ℚ) (isDaytime : Bool)
    (h : strIncludes weatherDesc "Rain" = true) :
    (generateAPLData weatherDesc effTemp precip windSpeed humidity uvIndex
        isDaytime).background = "rainy" ∧
    (generateAPLDataV2 weatherDesc effTemp precip windSpeed humidity uvIndex
        isDaytime).background = "rainy" := by
  constructor <;> simp [generateAPLData, generateAPLDataV2, backgroundType, h]

/-- C3 witness: the amended theorem at condition "Light Rain", at night. -/
theorem c3_amended_witness :
    (generateAPLData "Light Rain" 50 0 0 50 0 false).background = "rainy" ∧
    (generateAPLDataV2 "Light Rain" 50 0 0 50 0 false).background = "rainy" :=
  c3_amended "Light Rain" 50 0 0 50 0 false (by decide)

/-- The category rank of a temperature, as a numeric if-chain. -/
lemma rank_eq (t : ℚ) : categoryIndex (getTempCategory t) =
    if t < 0 then 0 else if t < 20 then 1 else if t < 35 then 2
    else if t < 50 then 3 else if t < 65 then 4 else if t < 80 then 5
    else if t < 90 then 6 else 7 := by
  unfold getTempCategory
  split_ifs <;> simp [categoryIndex, indexOfFrom, categoriesList]

set_option maxHeartbeats 1600000 in
/-- C6. The categorizer is total (a Lean function on all of ℚ), its rank is
monotone non-decreasing in the temperature, and it partitions the line into
exactly 8 contiguous half-open intervals with exclusive upper boundaries at
0, 20, 35, 50, 65, 80, 90 °F; category(-1) = "extreme cold",
category(0) = "very cold", category(19.9) = "very cold",
category(20) = "cold". -/
theorem c6_categorizer :
    (∀ t u : ℚ, t ≤ u →
      categoryIndex (getTempCategory t) ≤ categoryIndex (getTempCategory u)) ∧
    (∀ t : ℚ,
      (getTempCategory t = "extreme cold" ↔ t < 0) ∧
      (getTempCategory t = "very cold" ↔ 0 ≤ t ∧ t < 20) ∧
      (getTempCategory t = "cold" ↔ 20 ≤ t ∧ t < 35) ∧
      (getTempCategory t = "cool" ↔ 35 ≤ t ∧ t < 50) ∧
      (getTempCategory t = "mild" ↔ 50 ≤ t ∧ t < 65) ∧
      (getTempCategory t = "warm" ↔ 65 ≤ t ∧ t < 80) ∧
      (getTempCategory t = "hot" ↔ 80 ≤ t ∧ t < 90) ∧
      (getTempCategory t = "very hot" ↔ 90 ≤ t)) ∧
    getTempCategory (-1) = "extreme cold" ∧
    getTempCategory 0 = "very cold" ∧
    getTempCategory (199/10) = "very cold" ∧
    getTempCategory 20 = "cold" := by
  refine ⟨?_, ?_, by norm_num [getTempCategory], by norm_num [getTempCategory],
    by norm_num [getTempCategory], by norm_num [getTempCategory]⟩
  · intro t u htu
    rw [rank_eq, rank_eq]
    split_ifs <;> first | omega | linarith
  · intro t
    refine ⟨?_, ?_, ?_, ?_, ?_, ?_, ?_, ?_⟩ <;>
      (unfold getTempCategory; split_ifs <;>
        first
          | exact iff_of_true rfl (by linarith)
          | exact iff_of_true rfl ⟨by linarith, by linarith⟩
          | exact iff_of_false (by simp) (by intro hp; linarith)
          | exact iff_of_false (by simp) (by rintro ⟨hp1, hp2⟩; linarith))

/-- C6 witness: rank monotonicity instantiated at 10 ≤ 30. -/
theorem c6_categorizer_witness :
    categoryIndex (getTempCategory 10) ≤ categoryIndex (getTempCategory 30) :=
  c6_categorizer.1 10 30 (by norm_num)

/-- The categorizer only ever returns one of the eight category names. -/
lemma getTempCategory_cases (t : ℚ) :
    getTempCategory t = "extreme cold" ∨ getTempCategory t = "very cold" ∨
    getTempCategory t = "cold" ∨ getTempCategory t = "cool" ∨
    getTempCategory t = "mild" ∨ getTempCategory t = "warm" ∨
    getTempCategory t = "hot" ∨ getTempCategory t = "very hot" := by
  unfold getTempCategory
  split_ifs <;> simp

/-- Every reachable temperature-category group has at least two items. -/
lemma tempClothing_two_le (t : ℚ) :
    2 ≤ (tempClothing (getTempCategory t)).length := by
  rcases getTempCategory_cases t with h | h | h | h | h | h | h | h <;>
    rw [h] <;> simp [tempClothing]

/-- C10. For every input, the visual payload builder's clothing list starts
with the temperature-category group, which has at least two items, and the
later rule groups only append, so the whole list has at least two items.
Holds for both builders. -/
theorem c10_clothing_nonempty (weatherDesc : String)
    (effTemp precip windSpeed humidity uvIndex : ℚ) (isDaytime : Bool) :
    2 ≤ (tempClothing (getTempCategory effTemp)).length ∧
    (∃ rest, (generateAPLData weatherDesc effTemp precip windSpeed humidity uvIndex
        isDaytime).clothingRecommendations =
      tempClothing (getTempCategory effTemp) ++ rest) ∧
    2 ≤ (generateAPLData weatherDesc effTemp precip windSpeed humidity uvIndex
        isDaytime).clothingRecommendations.length ∧
    (∃ rest, (generateAPLDataV2 weatherDesc effTemp precip windSpeed humidity uvIndex
        isDaytime).clothingRecommendations =
      tempClothing (getTempCategory effTemp) ++ rest) ∧
    2 ≤ (generateAPLDataV2 weatherDesc effTemp precip windSpeed humidity uvIndex
        isDaytime).clothingRecommendations.length := by
  have h2 := tempClothing_two_le effTemp
  refine ⟨h2,
    ⟨precipClothing precip ++ snowClothing weatherDesc ++
      uvClothing isDaytime uvIndex ++ windClothing windSpeed, ?_⟩, ?_,
    ⟨precipClothing precip ++ snowClothing weatherDesc ++
      uvClothing isDaytime uvIndex ++ windClothingV2 windSpeed, ?_⟩, ?_⟩ <;>
    simp [generateAPLData, generateAPLDataV2] <;> omega

/-- The wind-protection item never comes from the temperature group. -/
lemma windItem_not_mem_tempClothing (c : String) :
    windProtectionItem ∉ tempClothing c := by
  unfold tempClothing
  split_ifs <;> simp [windProtectionItem]

/-- The wind-protection item never comes from the precipitation group. -/
lemma windItem_not_mem_precipClothing (p : ℚ) :
    windProtectionItem ∉ precipClothing p := by
  unfold precipClothing
  split_ifs <;> simp [windProtectionItem]

/-- The wind-protection item never comes from the snow group. -/
lemma windItem_not_mem_snowClothing (d : String) :
    windProtectionItem ∉ snowClothing d := by
  unfold snowClothing
  split_ifs <;> simp [windProtectionItem]

/-- The wind-protection item never comes from the UV group. -/
lemma windItem_not_mem_uvClothing (b : Bool) (u : ℚ) :
    windProtectionItem ∉ uvClothing b u := by
  unfold uvClothing
  split_ifs <;> simp [windProtectionItem]

/-- Membership in the index.mjs wind group is exactly `windSpeed > 15`. -/
lemma windItem_mem_windClothing (w : ℚ) :
    windProtectionItem ∈ windClothing w ↔ 15 < w := by
  unfold windClothing
  split_ifs with h <;> simp [h]

/-- Membership in the part_000 wind group is exactly `windSpeed > 5`. -/
lemma windItem_mem_windClothingV2 (w : ℚ) :
    windProtectionItem ∈ windClothingV2 w ↔ 5 < w := by
  unfold windClothingV2
  split_ifs with h <;> simp [h]

/-- C4. In the index.mjs builder the wind-protection item is appended iff
windSpeed > 15 mph, as the claim states. The part_000 builder instead
appends it iff windSpeed > 5 mph (it reuses `WIND_CHILL.LIGHT.threshold`,
documented as the 5-10 mph wind-chill band edge, where index.mjs used the
literal 15): at windSpeed = 10 mph it emits the item although 10 ≤ 15. -/
theorem c4_wind_item :
    (∀ (weatherDesc : String) (effTemp precip windSpeed humidity uvIndex : ℚ)
        (isDaytime : Bool),
      windProtectionItem ∈ (generateAPLData weatherDesc effTemp precip windSpeed
          humidity uvIndex isDaytime).clothingRecommendations ↔ 15 < windSpeed) ∧
    (∀ (weatherDesc : String) (effTemp precip windSpeed humidity uvIndex : ℚ)
        (isDaytime : Bool),
      windProtectionItem ∈ (generateAPLDataV2 weatherDesc effTemp precip windSpeed
          humidity uvIndex isDaytime).clothingRecommendations ↔ 5 < windSpeed) ∧
    windProtectionItem ∈ (generateAPLDataV2 "Clear Sky" 50 0 10 50 0
        true).clothingRecommendations ∧
    ¬(15 < (10 : ℚ)) := by
  refine ⟨?_, ?_, ?_, by norm_num⟩
  · intro weatherDesc effTemp precip windSpeed humidity uvIndex isDaytime
    simp [generateAPLData, windItem_not_mem_tempClothing,
      windItem_not_mem_precipClothing, windItem_not_mem_snowClothing,
      windItem_not_mem_uvClothing, windItem_mem_windClothing]
  · intro weatherDesc effTemp precip windSpeed humidity uvIndex isDaytime
    simp [generateAPLDataV2, windItem_not_mem_tempClothing,
      windItem_not_mem_precipClothing, windItem_not_mem_snowClothing,
      windItem_not_mem_uvClothing, windItem_mem_windClothingV2]
  · have h := (windItem_mem_windClothingV2 10).mpr (by norm_num)
    simp [generateAPLDataV2]
    exact Or.inr (Or.inr (Or.inr (Or.inr h)))

/-- Counting a kind across an appended singleton. -/
lemma countKind_append (k : TriggerKind) (l : List (TriggerKind × String))
    (p : TriggerKind × String) :
    countKind k (l ++ [p]) = countKind k l + (if kindEq p.1 k then 1 else 0) := by
  cases hk : kindEq p.1 k <;>
    simp [countKind, List.filter_append, List.filter, hk]

/-- Kind equality `kindEq` is reflexive. -/
lemma kindEq_refl (k : TriggerKind) : kindEq k k = true := by
  cases k <;> rfl

/-- Appending a statement of the counted kind adds one. -/
lemma countKind_append_same (k : TriggerKind) (l : List (TriggerKind × String))
    (txt : String) : countKind k (l ++ [(k, txt)]) = countKind k l + 1 := by
  simp [countKind_append, kindEq_refl]

/-- Appending a statement of a different kind leaves the count unchanged. -/
lemma countKind_append_other (k k' : TriggerKind) (l : List (TriggerKind × String))
    (txt : String) (hne : kindEq k' k = false) :
    countKind k (l ++ [(k', txt)]) = countKind k l := by
  simp [countKind_append, hne]

/-- Counting a kind distributes over append. -/
lemma countKind_append2 (k : TriggerKind) (l1 l2 : List (TriggerKind × String)) :
    countKind k (l1 ++ l2) = countKind k l1 + countKind k l2 := by
  simp [countKind, List.filter_append]

/-- Counting a kind on a cons cell. -/
lemma countKind_cons (k k' : TriggerKind) (txt : String)
    (l : List (TriggerKind × String)) :
    countKind k ((k', txt) :: l) =
      (if kindEq k' k then 1 else 0) + countKind k l := by
  cases hk : kindEq k' k <;> simp [countKind, List.filter_cons, hk] <;> omega

/-- Counting a kind on the empty list. -/
lemma countKind_nil (k : TriggerKind) : countKind k [] = 0 := rfl

/-- One scan step preserves the per-kind invariant: at most one statement of
each kind, and none unless that kind's flag is set. -/
lemma scanStep_kind_invariant (effFn : ℚ → ℚ → ℚ → ℚ) (cci : ℤ) (s i : ℕ)
    (e : HourEntry) (st : ScanState) (k : TriggerKind)
    (h : countKind k st.statements ≤ if flagFor st k then 1 else 0) :
    countKind k (scanStep effFn cci s i e st).statements ≤
      if flagFor (scanStep effFn cci s i e st) k then 1 else 0 := by
  rcases k <;>
    (simp only [scanStep]
     split_ifs <;>
       simp_all [countKind_append2, countKind_cons, countKind_nil, kindEq, flagFor] <;>
       omega)

/-- The scan loop preserves the per-kind invariant. -/
lemma scanLoop_kind_invariant (effFn : ℚ → ℚ → ℚ → ℚ) (cci : ℤ) (s : ℕ) (d : ℤ)
    (k : TriggerKind) :
    ∀ (rest : List HourEntry) (i : ℕ) (st : ScanState),
      countKind k st.statements ≤ (if flagFor st k then 1 else 0) →
      countKind k (scanLoop effFn cci s d i rest st).statements ≤
        (if flagFor (scanLoop effFn cci s d i rest st) k then 1 else 0) := by
  intro rest
  induction rest with
  | nil => intro i st h; simpa only [scanLoop] using h
  | cons e rest ih =>
    intro i st h
    simp only [scanLoop]
    by_cases hd : e.time.day ≠ d
    · simpa only [if_pos hd] using h
    · simpa only [if_neg hd] using ih (i + 1) (scanStep effFn cci s i e st)
        (scanStep_kind_invariant effFn cci s i e st k h)

/-- Any kind occurs at most once among the statements of either scanner. -/
lemma analyzeStatements_kind_le_one (startIndex : ℤ) (nowEff : ℚ)
    (hourly : List HourEntry) (k : TriggerKind) :
    countKind k (analyzeStatements startIndex nowEff hourly) ≤ 1 ∧
    countKind k (analyzeStatementsV2 startIndex nowEff hourly) ≤ 1 := by
  have hinit : countKind k (⟨[], false, false, false⟩ : ScanState).statements ≤
      (if flagFor (⟨[], false, false, false⟩ : ScanState) k then 1 else 0) := by
    rcases k <;> simp [countKind, flagFor]
  have hloop : ∀ (effFn : ℚ → ℚ → ℚ → ℚ) (cci : ℤ) (s : ℕ) (d : ℤ) (i : ℕ)
      (rest : List HourEntry),
      countKind k (scanLoop effFn cci s d i rest ⟨[], false, false, false⟩).statements ≤ 1 := by
    intro effFn cci s d i rest
    refine le_trans (scanLoop_kind_invariant effFn cci s d k rest i _ hinit) ?_
    split_ifs <;> omega
  constructor
  · unfold analyzeStatements
    split_ifs
    · simp [countKind_nil]
    · rcases hget : hourly.get? startIndex.toNat with _ | e0
      · simp only [hget]
        simp [countKind_nil]
      · simp only [hget]
        exact hloop _ _ _ _ _ _
  · unfold analyzeStatementsV2
    split_ifs
    · simp [countKind_nil]
    · rcases hget : hourly.get? startIndex.toNat with _ | e0
      · simp only [hget]
        simp [countKind_nil]
      · simp only [hget]
        split_ifs
        · exact hloop _ _ _ _ _ _
        · simp [countKind_nil]

/-- C5. For every dataset and locator index, the Later-Today summary of
either version contains at most two statements (the cap before joining), and
the full statement list of either scanner has at most one statement per
trigger kind, no matter how many qualifying hours exist. -/
theorem c5_scanner_bounded (startIndex : ℤ) (nowEff : ℚ) (hourly : List HourEntry) :
    ((analyzeStatementsV2 startIndex nowEff hourly).take 2).length ≤ 2 ∧
    (∀ k, countKind k (analyzeStatementsV2 startIndex nowEff hourly) ≤ 1) ∧
    ((analyzeStatements startIndex nowEff hourly).take 2).length ≤ 2 ∧
    (∀ k, countKind k (analyzeStatements startIndex nowEff hourly) ≤ 1) := by
  refine ⟨?_, fun k => (analyzeStatements_kind_le_one startIndex nowEff hourly k).2,
    ?_, fun k => (analyzeStatements_kind_le_one startIndex nowEff hourly k).1⟩ <;>
    simp [List.length_take]

/-- When the wind condition (wind > 25 within the 8-hour window) fails for an
hour, the scan step leaves the wind flag and the wind-statement count alone. -/
lemma scanStep_wind_skip (effFn : ℚ → ℚ → ℚ → ℚ) (cci : ℤ) (s i : ℕ)
    (e : HourEntry) (st : ScanState)
    (hw : ¬((25 : ℚ) < e.windSpeed ∧ i ≤ s + 8)) :
    (scanStep effFn cci s i e st).windNotified = st.windNotified ∧
    countKind TriggerKind.wind (scanStep effFn cci s i e st).statements =
      countKind TriggerKind.wind st.statements := by
  simp only [scanStep]
  split_ifs <;>
    simp_all [countKind_append2, countKind_cons, countKind_nil, kindEq]

/-- If no hour within the look-ahead window has wind above 25 mph, the scan
loop emits no wind statement. -/
lemma scanLoop_wind_zero (effFn : ℚ → ℚ → ℚ → ℚ) (cci : ℤ) (s : ℕ) (d : ℤ) :
    ∀ (rest : List HourEntry) (i : ℕ) (st : ScanState),
      st.windNotified = false →
      countKind TriggerKind.wind st.statements = 0 →
      (∀ j e, rest.get? j = some e → i + j ≤ s + 8 → e.windSpeed ≤ 25) →
      countKind TriggerKind.wind (scanLoop effFn cci s d i rest st).statements = 0 := by
  intro rest
  induction rest with
  | nil => intro i st _ h0 _; simpa only [scanLoop] using h0
  | cons e rest ih =>
    intro i st hflag h0 hw
    simp only [scanLoop]
    by_cases hd : e.time.day ≠ d
    · simpa only [if_pos hd] using h0
    · rw [if_neg hd]
      have hnw : ¬((25 : ℚ) < e.windSpeed ∧ i ≤ s + 8) := by
        rintro ⟨h1, h2⟩
        have := hw 0 e (by simp) (by omega)
        linarith
      obtain ⟨hf, hc⟩ := scanStep_wind_skip effFn cci s i e st hnw
      exact ih (i + 1) _ (by rw [hf]; exact hflag) (by rw [hc]; exact h0)
        (fun j e' hj hle => hw (j + 1) e' (by simpa using hj) (by omega))

/-- C8. For every dataset, if every hour at most 8 positions past the locator
index has wind at most 25 mph, then neither scanner emits a wind statement —
in particular a windy hour more than 8 positions past the locator never
produces one, and a calm window never produces one regardless of wind beyond
it. -/
theorem c8_wind_window (startIndex : ℤ) (nowEff : ℚ) (hourly : List HourEntry)
    (h : ∀ j e, hourly.get? j = some e → startIndex.toNat < j →
      j ≤ startIndex.toNat + 8 → e.windSpeed ≤ 25) :
    countKind TriggerKind.wind (analyzeStatementsV2 startIndex nowEff hourly) = 0 ∧
    countKind TriggerKind.wind (analyzeStatements startIndex nowEff hourly) = 0 := by
  have hdrop : ∀ j e, (hourly.drop (startIndex.toNat + 1)).get? j = some e →
      (startIndex.toNat + 1) + j ≤ startIndex.toNat + 8 → e.windSpeed ≤ 25 := by
    intro j e hj hle
    rw [List.get?_drop] at hj
    exact h _ e hj (by omega) (by omega)
  constructor
  · unfold analyzeStatementsV2
    split_ifs
    · simp [countKind_nil]
    · rcases hget : hourly.get? startIndex.toNat with _ | e0
      · simp only [hget]
        simp [countKind_nil]
      · simp only [hget]
        split_ifs
        · exact scanLoop_wind_zero _ _ _ _ _ _ _ rfl rfl hdrop
        · simp [countKind_nil]
  · unfold analyzeStatements
    split_ifs
    · simp [countKind_nil]
    · rcases hget : hourly.get? startIndex.toNat with _ | e0
      · simp only [hget]
        simp [countKind_nil]
      · simp only [hget]
        exact scanLoop_wind_zero _ _ _ _ _ _ _ rfl rfl hdrop

/-- C8 witness: a single located hour with 30 mph wind (nothing after it
within the window) yields no wind statement. -/
theorem c8_wind_window_witness :
    countKind TriggerKind.wind (analyzeStatementsV2 0 50 [w8entry]) = 0 ∧
    countKind TriggerKind.wind (analyzeStatements 0 50 [w8entry]) = 0 :=
  c8_wind_window 0 50 [w8entry] (by
    intro j e hj h1 h2
    cases j with
    | zero => omega
    | succ j => simp at hj)

/-- C7, counterexample. The claim promises an empty summary whenever no entry
after the located index shares the located hour's calendar day. With the
located hour on 2024-03-05 (fields year 2024, month 2, day 5 in JS 0-based
months) and the single later entry exactly one month later (month 3, day 5,
wind 30 mph), no later entry shares the located hour's calendar day, yet both
scanners — whose day test compares only the day-of-month — scan the later
entry and return a non-empty summary. -/
theorem c7_counterexample :
    sameCalendarDay ce7e1.time ce7e0.time = false ∧
    analyzeLaterTodayV2 0 50 [ce7e0, ce7e1] ≠ "" ∧
    analyzeLaterToday 0 50 [ce7e0, ce7e1] ≠ "" := by
  refine ⟨by decide, ?_, ?_⟩
  · norm_num +decide [analyzeLaterTodayV2, analyzeStatementsV2, scanLoop, scanStep,
      getTempCategory, categoryIndex, indexOfFrom, categoriesList, computeEffectiveTempV2,
      ce7e0, ce7e1]
  · norm_num +decide [analyzeLaterToday, analyzeStatements, scanLoop, scanStep,
      getTempCategory, categoryIndex, indexOfFrom, categoriesList, computeEffectiveTemp,
      ce7e0, ce7e1]

/-- C7, amended. Either version of the Later-Today Scanner returns the empty
summary string (its embedding is total, so no error is possible) whenever the
locator index is the not-found sentinel (negative), the hourly series is
empty, or no entry after the located index has the located hour's
day-of-month — the scanner's day-boundary test compares only `getDate`. -/
theorem c7_amended (startIndex : ℤ) (nowEff : ℚ) (hourly : List HourEntry) :
    (startIndex < 0 →
      analyzeLaterTodayV2 startIndex nowEff hourly = "" ∧
      analyzeLaterToday startIndex nowEff hourly = "") ∧
    (hourly = [] →
      analyzeLaterTodayV2 startIndex nowEff hourly = "" ∧
      analyzeLaterToday startIndex nowEff hourly = "") ∧
    (∀ e0, hourly.get? startIndex.toNat = some e0 →
      (∀ e ∈ hourly.drop (startIndex.toNat + 1), e.time.day ≠ e0.time.day) →
      analyzeLaterTodayV2 startIndex nowEff hourly = "" ∧
      analyzeLaterToday startIndex nowEff hourly = "") := by
  refine ⟨?_, ?_, ?_⟩
  · intro hneg
    constructor <;>
      simp [analyzeLaterTodayV2, analyzeLaterToday, analyzeStatementsV2,
        analyzeStatements, hneg]
  · intro hnil
    subst hnil
    constructor <;>
      simp [analyzeLaterTodayV2, analyzeLaterToday, analyzeStatementsV2,
        analyzeStatements]
  · intro e0 hget hday
    have hV2 : analyzeStatementsV2 startIndex nowEff hourly = [] := by
      unfold analyzeStatementsV2
      split_ifs
      · rfl
      · simp only [hget]
        have hany : (hourly.drop (startIndex.toNat + 1)).any
            (fun e => e.time.day == e0.time.day) = false := by
          rw [List.any_eq_false]
          intro e he
          simpa using hday e he
        rw [hany]
        simp
    have hV1 : analyzeStatements startIndex nowEff hourly = [] := by
      unfold analyzeStatements
      split_ifs
      · rfl
      · simp only [hget]
        rcases hdrop : hourly.drop (startIndex.toNat + 1) with _ | ⟨e, rest⟩
        · simp [scanLoop]
        · have hne : e.time.day ≠ e0.time.day := by
            apply hday
            rw [hdrop]
            simp
          simp only [scanLoop]
          rw [if_pos hne]
    constructor <;>
      simp [analyzeLaterTodayV2, analyzeLaterToday, hV2, hV1]

/-- C7 witness: located hour 11 PM is the last hour of its day-of-month in a
two-entry series; both scanners return the empty summary although the next
entry is stormy. -/
theorem c7_amended_witness :
    analyzeLaterTodayV2 0 50 [w7e0, w7e1] = "" ∧
    analyzeLaterToday 0 50 [w7e0, w7e1] = "" :=
  (c7_amended 0 50 [w7e0, w7e1]).2.2 w7e0 (by decide) (by decide)

/-- Entry agreement is reflexive. -/
lemma agreeEntry_refl (e : HourEntry) : agreeEntry e e := by
  simp [agreeEntry, agreeTS]

/-- List agreement is reflexive. -/
lemma agreeList_refl (l : List HourEntry) : AgreeList l l := by
  induction l with
  | nil => exact AgreeList.nil
  | cons e l ih => exact AgreeList.cons (agreeEntry_refl e) ih

/-- Rewriting month and year of one entry agrees pointwise with the
original series. -/
lemma agreeList_setMonthYear (l : List HourEntry) (j : ℕ) (m y : ℤ) :
    AgreeList (setMonthYear l j m y) l := by
  induction l generalizing j with
  | nil => exact AgreeList.nil
  | cons e l ih =>
    cases j with
    | zero =>
      refine AgreeList.cons ?_ (agreeList_refl l)
      simp [agreeEntry, agreeTS]
    | succ j => exact AgreeList.cons (agreeEntry_refl e) (ih j)

/-- Agreeing series have equal length. -/
lemma AgreeList.length_eq {l n : List HourEntry} (h : AgreeList l n) :
    l.length = n.length := by
  induction h with
  | nil => rfl
  | cons _ _ ih => simpa using ih

/-- Dropping preserves agreement. -/
lemma AgreeList.drop {l n : List HourEntry} (h : AgreeList l n) (k : ℕ) :
    AgreeList (l.drop k) (n.drop k) := by
  induction k generalizing l n with
  | zero => simpa using h
  | succ k ih =>
    cases h with
    | nil => exact AgreeList.nil
    | cons ha ht => simpa using ih ht

/-- Indexing agreeing series gives agreeing entries (or none on both). -/
lemma AgreeList.get?_agree {l n : List HourEntry} (h : AgreeList l n) (j : ℕ) :
    (l.get? j = none ∧ n.get? j = none) ∨
    ∃ a b, l.get? j = some a ∧ n.get? j = some b ∧ agreeEntry a b := by
  induction h generalizing j with
  | nil => left; simp
  | cons ha ht ih =>
    cases j with
    | zero => right; exact ⟨_, _, rfl, rfl, ha⟩
    | succ j => simpa using ih j

/-- The day-existence pre-check only reads days, so it is stable under
agreement. -/
lemma AgreeList.any_day {l n : List HourEntry} (h : AgreeList l n) (d : ℤ) :
    (l.any fun e => e.time.day == d) = (n.any fun e => e.time.day == d) := by
  induction h with
  | nil => rfl
  | cons ha ht ih =>
    simp only [List.any_cons, ih]
    rw [ha.1.1]

/-- Formatting `formatHour` only reads the hour field. -/
lemma formatHour_congr {a b : Timestamp} (h : agreeTS a b) :
    formatHour a = formatHour b := by
  simp [formatHour, h.2.1]

/-- The scan step treats agreeing entries identically. -/
lemma scanStep_congr (effFn : ℚ → ℚ → ℚ → ℚ) (cci : ℤ) (s i : ℕ)
    {a b : HourEntry} (h : agreeEntry a b) (st : ScanState) :
    scanStep effFn cci s i a st = scanStep effFn cci s i b st := by
  obtain ⟨hts, h1, h2, h3, h4, h5⟩ := h
  simp only [scanStep, h1, h2, h3, h4, h5, formatHour_congr hts]

/-- The scan loop treats agreeing series identically. -/
lemma scanLoop_congr (effFn : ℚ → ℚ → ℚ → ℚ) (cci : ℤ) (s : ℕ) (d : ℤ) :
    ∀ {l n : List HourEntry}, AgreeList l n → ∀ (i : ℕ) (st : ScanState),
      scanLoop effFn cci s d i l st = scanLoop effFn cci s d i n st := by
  intro l n h
  induction h with
  | nil => intro i st; rfl
  | cons ha ht ih =>
    intro i st
    simp only [scanLoop, ha.1.1, scanStep_congr effFn cci s i ha, ih]

/-- The scanners only read day-of-month, hour, and weather fields: both are
invariant under rewriting any entry's month and year. -/
lemma analyzeStatements_setMonthYear (startIndex : ℤ) (nowEff : ℚ)
    (hourly : List HourEntry) (j : ℕ) (m y : ℤ) :
    analyzeStatementsV2 startIndex nowEff (setMonthYear hourly j m y) =
      analyzeStatementsV2 startIndex nowEff hourly ∧
    analyzeStatements startIndex nowEff (setMonthYear hourly j m y) =
      analyzeStatements startIndex nowEff hourly := by
  have hag := agreeList_setMonthYear hourly j m y
  have hlen := hag.length_eq
  have hdrop := hag.drop (startIndex.toNat + 1)
  constructor
  · unfold analyzeStatementsV2
    rw [hlen]
    split_ifs with hguard
    · rfl
    · rcases hag.get?_agree startIndex.toNat with ⟨hn1, hn2⟩ | ⟨a, b, ha, hb, hab⟩
      · rw [hn1, hn2]
      · rw [ha, hb]
        simp only [hdrop.any_day, hab.1.1]
        split_ifs with hany
        · rw [scanLoop_congr _ _ _ _ hdrop]
        · rfl
  · unfold analyzeStatements
    rw [hlen]
    split_ifs with hguard
    · rfl
    · rcases hag.get?_agree startIndex.toNat with ⟨hn1, hn2⟩ | ⟨a, b, ha, hb, hab⟩
      · rw [hn1, hn2]
      · rw [ha, hb]
        simp only [hab.1.1]
        rw [scanLoop_congr _ _ _ _ hdrop]

/-- C9. The scanners' day-boundary test compares only day-of-month: both
versions of the Later-Today Scanner are invariant under rewriting the month
and year of any hourly entry; and concretely, with a located hour at
year 2024 / month 2 / day 5, an entry in month 6 of the same year and an
entry in year 2025 — all sharing day-of-month 5 — are treated as the same
calendar day: the scan continues through the cross-month entry (firing its
wind trigger) into the cross-year entry (firing its precipitation trigger). -/
theorem c9_day_of_month_only :
    (∀ (startIndex : ℤ) (nowEff : ℚ) (hourly : List HourEntry) (j : ℕ) (m y : ℤ),
      analyzeLaterTodayV2 startIndex nowEff (setMonthYear hourly j m y) =
        analyzeLaterTodayV2 startIndex nowEff hourly ∧
      analyzeLaterToday startIndex nowEff (setMonthYear hourly j m y) =
        analyzeLaterToday startIndex nowEff hourly) ∧
    countKind TriggerKind.wind (analyzeStatementsV2 0 50 [c9e0, c9e1, c9e2]) = 1 ∧
    countKind TriggerKind.precipitation
      (analyzeStatementsV2 0 50 [c9e0, c9e1, c9e2]) = 1 := by
  refine ⟨?_, ?_, ?_⟩
  · intro startIndex nowEff hourly j m y
    obtain ⟨h2, h1⟩ := analyzeStatements_setMonthYear startIndex nowEff hourly j m y
    constructor
    · simp [analyzeLaterTodayV2, h2]
    · simp [analyzeLaterToday, h1]
  · norm_num +decide [analyzeStatementsV2, scanLoop, scanStep, getTempCategory,
      categoryIndex, indexOfFrom, categoriesList, computeEffectiveTempV2,
      countKind, List.filter, kindEq, c9e0, c9e1, c9e2]
  · norm_num +decide [analyzeStatementsV2, scanLoop, scanStep, getTempCategory,
      categoryIndex, indexOfFrom, categoriesList, computeEffectiveTempV2,
      countKind, List.filter, kindEq, c9e0, c9e1, c9e2]

/-- The forward locator loop computes: the first exact-hour index if any
(shifted by the running index), else the last qualifying index, else the
accumulator. -/
lemma findHourIndexLoop_eq (cur : Timestamp) :
    ∀ (ts : List Timestamp) (i : ℕ) (idx : ℤ),
      findHourIndexLoop cur ts i idx =
        match firstIdxWhere (fun t => exactHourB t cur) ts with
        | some j => ((i + j : ℕ) : ℤ)
        | none =>
          match lastIdxWhere (fun t => qualB t cur) ts with
          | some k => ((i + k : ℕ) : ℤ)
          | none => idx := by
  intro ts
  induction ts with
  | nil => intro i idx; rfl
  | cons t rest ih =>
    intro i idx
    by_cases hq : qualB t cur = true
    · by_cases hh : t.hour = cur.hour
      · have hex : exactHourB t cur = true := by
          simp [exactHourB, hq, hh]
        simp [findHourIndexLoop, firstIdxWhere, hq, hh, hex]
      · have hex : exactHourB t cur = false := by
          simp [exactHourB, hh]
        simp only [findHourIndexLoop, firstIdxWhere, lastIdxWhere, hq, hh, hex,
          if_true, if_false, ite_true, ite_false]
        rw [ih (i + 1) (i : ℤ)]
        rcases hfi : firstIdxWhere (fun t => exactHourB t cur) rest with _ | j
        · rcases hli : lastIdxWhere (fun t => qualB t cur) rest with _ | k
          · simp [hq]
          · simp
            all_goals (push_cast; ring)
        · simp
          all_goals (push_cast; ring)
    · have hex : exactHourB t cur = false := by
        simp [exactHourB, hq]
      simp only [findHourIndexLoop, firstIdxWhere, lastIdxWhere, hq, hex,
        if_true, if_false, ite_true, ite_false, Bool.false_eq_true]
      rw [ih (i + 1) idx]
      rcases hfi : firstIdxWhere (fun t => exactHourB t cur) rest with _ | j
      · rcases hli : lastIdxWhere (fun t => qualB t cur) rest with _ | k
        · simp [hq]
        · simp
          all_goals (push_cast; ring)
      · simp
        all_goals (push_cast; ring)

/-- Behaviour of `lastIdxWhere` over an appended element. -/
lemma lastIdxWhere_append {α : Type} (p : α → Bool) (l : List α) (a : α) :
    lastIdxWhere p (l ++ [a]) =
      if p a then some l.length else lastIdxWhere p l := by
  induction l with
  | nil => cases hp : p a <;> simp [lastIdxWhere, hp]
  | cons b l ih =>
    have hstep : lastIdxWhere p ((b :: l) ++ [a]) =
        match lastIdxWhere p (l ++ [a]) with
        | some k => some (k + 1)
        | none => if p b then some 0 else none := rfl
    rw [hstep, ih]
    cases hp : p a
    · simp [hp, lastIdxWhere]
    · simp [hp]

/-- The backward fallback loop finds the last index in the first `n` entries
whose timestamp is at most the current timestamp. -/
lemma backScan_eq (cur : Timestamp) (times : List Timestamp) :
    ∀ n, n ≤ times.length →
      backScan cur times n =
        (match lastIdxWhere (fun t => tsLeB t cur) (times.take n) with
         | some m => (m : ℤ)
         | none => -1) := by
  intro n
  induction n with
  | zero => intro _; simp [backScan, lastIdxWhere]
  | succ n ih =>
    intro hle
    have hn : n < times.length := by omega
    rcases hget : times.get? n with _ | x
    · rw [List.get?_eq_none] at hget
      omega
    · have hgetD : times.getD n default = x := by
        simp [List.getD_eq_getElem?_getD, ← List.get?_eq_getElem?, hget]
      have htake : times.take (n + 1) = times.take n ++ [x] := by
        rw [List.take_succ, ← List.get?_eq_getElem?, hget]
        rfl
      rw [backScan, hgetD, htake, lastIdxWhere_append]
      have hlen : (times.take n).length = n := by
        simp [List.length_take]
        omega
      cases hp : tsLeB x cur
      · simp only [if_false, Bool.false_eq_true]
        exact ih (by omega)
      · simp [hlen]

/-- C2, counterexample. The index.mjs hour locator
(`hourlyTimes.indexOf(currentTime)`) does not implement the claimed
algorithm: with current time 10:30 and a single hourly entry at 10:00 on the
same day, it returns the not-found sentinel −1 whereas the claimed algorithm
(and the part_000 locator) returns index 0, the exact hour-of-day match. -/
theorem c2_counterexample :
    indexOfLocator ⟨2024, 2, 5, 10, 30⟩ [⟨2024, 2, 5, 10, 0⟩] = -1 ∧
    findHourIndexSpec ⟨2024, 2, 5, 10, 30⟩ [⟨2024, 2, 5, 10, 0⟩] = 0 ∧
    findHourIndex ⟨2024, 2, 5, 10, 30⟩ [⟨2024, 2, 5, 10, 0⟩] = 0 ∧
    (-1 : ℤ) ≠ 0 := by
  refine ⟨by decide, by decide, by decide, by decide⟩

/-- C2, amended. The part_000 handler's hour locator returns exactly the
index chosen by the claimed algorithm: the first same-day entry with an exact
hour-of-day match, else the latest same-day entry with hour-of-day at most
the current hour, else the last entry overall with timestamp at most the
current timestamp, else the not-found sentinel −1 (in particular −1 on an
empty series). The index.mjs handler's locator instead performs an exact
full-timestamp lookup (`indexOf`) and does not implement this algorithm. -/
theorem c2_amended (cur : Timestamp) (times : List Timestamp) :
    findHourIndex cur times = findHourIndexSpec cur times := by
  unfold findHourIndex findHourIndexSpec
  rw [findHourIndexLoop_eq]
  rcases hfi : firstIdxWhere (fun t => exactHourB t cur) times with _ | j
  · rcases hli : lastIdxWhere (fun t => qualB t cur) times with _ | k
    · cases times with
      | nil => simp [backScan, lastIdxWhere]
      | cons t rest =>
        have hguard : ((-1 : ℤ) = -1 ∧ 0 < (t :: rest).length) := by
          simp
        rw [if_pos hguard, backScan_eq cur (t :: rest) (t :: rest).length (le_refl _),
          List.take_length]
    · have hne : ¬(((0 + k : ℕ) : ℤ) = -1 ∧ 0 < times.length) := by
        rintro ⟨hk, _⟩
        omega
      rw [if_neg hne]
      simp
  · have hne : ¬(((0 + j : ℕ) : ℤ) = -1 ∧ 0 < times.length) := by
      rintro ⟨hk, _⟩
      omega
    rw [if_neg hne]
    simp
